import Mathlib

/-!
Verification of the SmartLearn quiz/dashboard application.

The development shallowly embeds the data model and the operations of
`app.py` and `import_questions.py`:

* Python strings are `String`; `str.strip` / `str.upper` / `str.lower`
  are modelled on the character list (`pyStrip`, `pyUpper`, `pyLower`).
* the `questions` table is a `List Question`, the `student_scores` table a
  `List Attempt`; SQL aggregation queries become list functions
  (filter / join / group / sort), with `GROUP BY` output order modelled by
  `List.dedup` of the grouping keys (SQLite leaves the order of groups with
  equal sort keys unspecified, and so does the specification).
* `ORDER BY RANDOM() LIMIT n` is modelled nondeterministically: the result
  is `List.take n` of an arbitrary permutation of the matching rows, and
  theorems quantify over that permutation.
* fallible code returns `Option`: a Python expression that can raise
  (`[0]` on an empty string) is `none` on the raising input.
-/

/-- Python's `str.strip()` (restricted to ASCII whitespace, which is all the
repository's data paths produce): drop whitespace from both ends. -/
def pyStrip (s : String) : String :=
  String.mk (((s.toList.dropWhile Char.isWhitespace).reverse.dropWhile
    Char.isWhitespace).reverse)

/-- Python's `str.upper()` on ASCII data: uppercase every character. -/
def pyUpper (s : String) : String :=
  String.mk (s.toList.map Char.toUpper)

/-- Python's `str.lower()` on ASCII data: lowercase every character. -/
def pyLower (s : String) : String :=
  String.mk (s.toList.map Char.toLower)

/-- One row of the `questions` table (`ensure_tables` in `app.py`).
The `answer` column is nullable, hence `Option String`. -/
structure Question where
  id : Nat
  question : String
  option_a : String
  option_b : String
  option_c : String
  option_d : String
  answer : Option String
  subject : String
  chapter : String
  topic : String
  difficulty : String
  qtype : String
deriving DecidableEq

/-- One row of the `student_scores` table: an attempt record. -/
structure Attempt where
  student_id : String
  question_id : Nat
  is_correct : Nat
deriving DecidableEq

/-! ## Scoring/Grading (`take_test_ui` / `adaptive_test_ui`, app.py)

`correct_ans = row[0].strip().upper()[0] if row and row[0] else ""` followed by
`is_correct = 1 if user_choice == correct_ans else 0`.  A `NULL` or empty
stored answer yields the empty comparison string; a non-empty stored answer is
stripped, uppercased and indexed at 0 — which raises `IndexError` when the
stripped string is empty (whitespace-only answer), modelled as `none`. -/

def gradeAnswer (stored : Option String) (user_choice : String) : Option Nat :=
  match stored with
  | none => some (if user_choice = "" then 1 else 0)
  | some s =>
    if s = "" then some (if user_choice = "" then 1 else 0)
    else
      match (pyUpper (pyStrip s)).toList with
      | [] => none
      | c :: _ => some (if user_choice = String.mk [c] then 1 else 0)

/-- `s` begins with the (non-empty) string `u`. -/
def strBeginsWith (s u : String) : Prop :=
  u.toList ≠ [] ∧ s.toList.take u.toList.length = u.toList

instance (s u : String) : Decidable (strBeginsWith s u) :=
  inferInstanceAs (Decidable (_ ∧ _))

/-! ## Answer normalization (`normalize_answer`, import_questions.py) -/

/-- `normalize_answer` from `import_questions.py`, applied to the raw Answer
cell and the four option cells of one spreadsheet row.  The function strips its
inputs exactly where the Python does (`ans = row["Answer"].strip()` and
`str(row["Option X"]).strip()`). -/
def normalize_answer (answer opt_a opt_b opt_c opt_d : String) : String :=
  let ans := pyStrip answer
  let opts := [(pyStrip opt_a, "A"), (pyStrip opt_b, "B"),
               (pyStrip opt_c, "C"), (pyStrip opt_d, "D")]
  if ans = "" then ""
  else if ans.length = 1 ∧ pyUpper ans ∈ (["A", "B", "C", "D"] : List String) then
    pyUpper ans
  else
    match (opts.find? (fun p => pyLower ans = pyLower p.1)).map (fun p => p.2) with
    | some letter => letter
    | none =>
      match (pyUpper ans).toList.find? (fun ch => ch ∈ (['A', 'B', 'C', 'D'] : List Char)) with
      | some ch => String.mk [ch]
      | none => ans

/-- The normalization cascade as the specification words it: an empty answer
stays empty; a value that is already a single letter A–D (any case) is
uppercased and kept; otherwise a value matching one of the four option texts
case-insensitively becomes that option's letter; otherwise the first character
among A–D occurring in the uppercased value is taken; otherwise the value
passes through unchanged. -/
def normalizeAnswerSpec (answer opt_a opt_b opt_c opt_d : String) : String :=
  if answer = "" then ""
  else if answer.length = 1 ∧ pyUpper answer ∈ (["A", "B", "C", "D"] : List String) then
    pyUpper answer
  else
    match (([(opt_a, "A"), (opt_b, "B"), (opt_c, "C"), (opt_d, "D")].find?
        (fun p => pyLower answer = pyLower p.1)).map (fun p => p.2)) with
    | some letter => letter
    | none =>
      match (pyUpper answer).toList.find? (fun ch => ch ∈ (['A', 'B', 'C', 'D'] : List Char)) with
      | some ch => String.mk [ch]
      | none => answer

/-- The normalization cascade as amended: identical to `normalizeAnswerSpec`
except that the option-match step compares the answer case-insensitively
against the whitespace-stripped option texts, which is what the code does
(`opts = [str(row["Option X"]).strip() …]`) — the import pipeline strips only
the Answer column before `normalize_answer` runs, not the option columns. -/
def normalizeAnswerCascadeStripped (answer opt_a opt_b opt_c opt_d : String) : String :=
  if answer = "" then ""
  else if answer.length = 1 ∧ pyUpper answer ∈ (["A", "B", "C", "D"] : List String) then
    pyUpper answer
  else
    match (([(pyStrip opt_a, "A"), (pyStrip opt_b, "B"), (pyStrip opt_c, "C"),
        (pyStrip opt_d, "D")].find?
        (fun p => pyLower answer = pyLower p.1)).map (fun p => p.2)) with
    | some letter => letter
    | none =>
      match (pyUpper answer).toList.find? (fun ch => ch ∈ (['A', 'B', 'C', 'D'] : List Char)) with
      | some ch => String.mk [ch]
      | none => answer

/-! ## Question insertion (`add_question_ui`, app.py; `import_to_db`, import_questions.py) -/

/-- Outcome of the admin Add Question form. -/
inductive AddOutcome where
  | added
  | duplicateSkipped
  | validationError
deriving DecidableEq

/-- The admin Add Question operation (`add_question_ui`, app.py).  Empty
(after strip) question text is a validation error; the insert stores every
free-text field stripped and the selected answer letter stripped; a row whose
`question` text equals an existing row's text raises the UNIQUE constraint,
which the code catches and turns into a warning, leaving the store unchanged.
`difficulty` and `qtype` come from fixed select boxes and are stored as-is. -/
def add_question_ui (store : List Question) (newId : Nat)
    (qtext opt_a opt_b opt_c opt_d answer subject chapter topic difficulty qtype : String) :
    List Question × AddOutcome :=
  if pyStrip qtext = "" then (store, .validationError)
  else
    let q : Question :=
      { id := newId, question := pyStrip qtext, option_a := pyStrip opt_a,
        option_b := pyStrip opt_b, option_c := pyStrip opt_c, option_d := pyStrip opt_d,
        answer := some (pyStrip answer), subject := pyStrip subject,
        chapter := pyStrip chapter, topic := pyStrip topic,
        difficulty := difficulty, qtype := qtype }
    if store.any (fun r => r.question = q.question) then (store, .duplicateSkipped)
    else (store ++ [q], .added)

/-- Outcome of one bulk-import row. -/
inductive ImportOutcome where
  | inserted
  | skipped
deriving DecidableEq

/-- One iteration of the insert loop of `import_to_db` (import_questions.py):
all fields are stripped; a blank question is skipped, a UNIQUE-constraint
violation (duplicate question text) is caught and counted as skipped. -/
def import_row (store : List Question) (newId : Nat)
    (question opt_a opt_b opt_c opt_d answer subject chapter topic difficulty qtype : String) :
    List Question × ImportOutcome :=
  let vq := pyStrip question
  let q : Question :=
    { id := newId, question := vq, option_a := pyStrip opt_a,
      option_b := pyStrip opt_b, option_c := pyStrip opt_c, option_d := pyStrip opt_d,
      answer := some (pyStrip answer), subject := pyStrip subject,
      chapter := pyStrip chapter, topic := pyStrip topic,
      difficulty := pyStrip difficulty, qtype := pyStrip qtype }
  if vq = "" then (store, .skipped)
  else if store.any (fun r => r.question = vq) then (store, .skipped)
  else (store ++ [q], .inserted)

/-! ## Test session (`take_test_ui`, app.py) -/

/-- The Streamlit session-state keys used by `take_test_ui`:
`test_questions`, `test_student` and `answers`. -/
structure SessionState where
  test_questions : Option (List Question)
  test_student : Option String
  answers : List (Nat × String)
deriving DecidableEq

/-- The session-preparation step of `take_test_ui`: a fresh sample is drawn
only when no test is present or the stored session belongs to a different
student; if the freshly drawn sample is empty the code warns and returns,
leaving the session state untouched; otherwise the three keys are overwritten.
`fresh` stands for the rows the `ORDER BY RANDOM() LIMIT n` query returned. -/
def take_test_prepare (s : SessionState) (student_id : String)
    (fresh : List Question) : SessionState :=
  if s.test_questions = none ∨ s.test_student ≠ some student_id then
    if fresh = [] then s
    else
      { test_questions := some fresh, test_student := some student_id,
        answers := fresh.map (fun q => (q.id, "")) }
  else s

/-! ## Random sampling (`take_test_ui` / `adaptive_test_ui`, app.py) -/

/-- Rows matching `WHERE chapter IN (…)` of the adaptive-test query. -/
def matchingRows (qs : List Question) (chaps : List String) : List Question :=
  qs.filter (fun q => q.chapter ∈ chaps)

/-- `ORDER BY RANDOM() LIMIT n`: take the first `n` rows of a shuffled copy of
the matching rows.  Theorems quantify over the shuffle (an arbitrary
permutation), which models the randomness. -/
def orderRandomLimit (shuffled : List Question) (n : Nat) : List Question :=
  shuffled.take n

/-! ## Weak-Area Analyzer (`compute_weak_chapters`, app.py)

`SELECT q.chapter, SUM(s.is_correct), COUNT(*) FROM student_scores s JOIN
questions q ON s.question_id = q.id WHERE s.student_id = ? GROUP BY q.chapter
ORDER BY (1.0*SUM(s.is_correct)/COUNT(*)) ASC LIMIT ?`. -/

/-- The joined rows `(chapter, is_correct)` of the student's attempts:
`student_scores ⋈ questions` restricted to one student. -/
def joinedRows (qs : List Question) (atts : List Attempt) (sid : String) :
    List (String × Nat) :=
  (atts.filter (fun a => a.student_id = sid)).flatMap (fun a =>
    (qs.filter (fun q => q.id = a.question_id)).map (fun q => (q.chapter, a.is_correct)))

/-- `SUM(s.is_correct)` of one chapter group. -/
def chapCorrect (rows : List (String × Nat)) (c : String) : Nat :=
  ((rows.filter (fun r => r.1 = c)).map Prod.snd).sum

/-- `COUNT(*)` of one chapter group. -/
def chapTotal (rows : List (String × Nat)) (c : String) : Nat :=
  (rows.filter (fun r => r.1 = c)).length

/-- The grouped rows `(chapter, correct, total)`, one per distinct chapter
among the student's attempts.  Group output order for equal sort keys is
unspecified in SQLite; `List.dedup` of the keys fixes one order. -/
def chapterStats (qs : List Question) (atts : List Attempt) (sid : String) :
    List (String × Nat × Nat) :=
  ((joinedRows qs atts sid).map Prod.fst).dedup.map
    (fun c => (c, chapCorrect (joinedRows qs atts sid) c, chapTotal (joinedRows qs atts sid) c))

/-- `1.0*SUM(s.is_correct)/COUNT(*)` of a grouped row (exact rational). -/
def accOf (x : String × Nat × Nat) : ℚ := (x.2.1 : ℚ) / (x.2.2 : ℚ)

/-- The `ORDER BY … ASC` comparison of the weak-chapter query. -/
def chapLE (x y : String × Nat × Nat) : Prop := accOf x ≤ accOf y

instance : DecidableRel chapLE :=
  fun x y => inferInstanceAs (Decidable (accOf x ≤ accOf y))

instance : IsTotal (String × Nat × Nat) chapLE :=
  ⟨fun x y => le_total (accOf x) (accOf y)⟩

instance : IsTrans (String × Nat × Nat) chapLE :=
  ⟨fun _ _ _ h1 h2 => le_trans h1 h2⟩

/-- `compute_weak_chapters` from app.py: group, sort ascending by accuracy,
truncate to `limit_chaps`, keep the chapter names. -/
def compute_weak_chapters (qs : List Question) (atts : List Attempt) (sid : String)
    (limit_chaps : Nat) : List String :=
  ((List.insertionSort chapLE (chapterStats qs atts sid)).take limit_chaps).map
    (fun x => x.1)

/-- Per-chapter accuracy of a student, as the weak-chapter query computes it. -/
def chapAccuracy (qs : List Question) (atts : List Attempt) (sid c : String) : ℚ :=
  accOf (c, chapCorrect (joinedRows qs atts sid) c, chapTotal (joinedRows qs atts sid) c)

/-! ## Dashboard overall block (`student_dashboard_ui`, app.py) -/

/-- `ROUND(x, 2)` on an exact rational (SQLite / Python round to two decimal
places; all values rounded here are nonnegative, where round-half-away equals
round-half-up). -/
def round2 (x : ℚ) : ℚ := (round (x * 100) : ℚ) / 100

/-- What the dashboard's overall block renders. -/
inductive DashboardView where
  | noAttempts
  | report (attempted correct : Nat) (accuracy : ℚ)
deriving DecidableEq

/-- The overall block of `student_dashboard_ui`: `SELECT COUNT(*), SUM(is_correct)
… WHERE student_id = ?`; when the count is zero the code shows the
"No attempts yet" message and returns before computing the accuracy. -/
def student_dashboard_overall (atts : List Attempt) (sid : String) : DashboardView :=
  let mine := atts.filter (fun a => a.student_id = sid)
  if mine.length = 0 then .noAttempts
  else
    .report mine.length ((mine.map Attempt.is_correct).sum)
      (round2 ((100 : ℚ) * ((mine.map Attempt.is_correct).sum : ℚ) / (mine.length : ℚ)))

/-! ## Leaderboard (`leaderboard_ui`, app.py)

`SELECT s.student_id, COUNT(s.id) AS attempted, SUM(s.is_correct) AS correct,
ROUND(100.0*SUM(s.is_correct)/COUNT(s.id),2) AS accuracy FROM student_scores s
GROUP BY s.student_id ORDER BY accuracy DESC, attempted DESC`. -/

/-- `COUNT(s.id)` of one student group. -/
def stuAttempted (atts : List Attempt) (s : String) : Nat :=
  (atts.filter (fun a => a.student_id = s)).length

/-- `SUM(s.is_correct)` of one student group. -/
def stuCorrect (atts : List Attempt) (s : String) : Nat :=
  ((atts.filter (fun a => a.student_id = s)).map Attempt.is_correct).sum

/-- The `accuracy` column: `ROUND(100.0*SUM(s.is_correct)/COUNT(s.id),2)`. -/
def lbAccuracy (atts : List Attempt) (s : String) : ℚ :=
  round2 ((100 : ℚ) * (stuCorrect atts s : ℚ) / (stuAttempted atts s : ℚ))

/-- The grouped leaderboard rows `(student, attempted, correct, accuracy)`,
one per distinct student occurring in `student_scores`. -/
def lbStats (atts : List Attempt) : List (String × Nat × Nat × ℚ) :=
  ((atts.map Attempt.student_id).dedup).map
    (fun s => (s, stuAttempted atts s, stuCorrect atts s, lbAccuracy atts s))

/-- The `ORDER BY accuracy DESC, attempted DESC` comparison. -/
def lbRel (x y : String × Nat × Nat × ℚ) : Prop :=
  y.2.2.2 < x.2.2.2 ∨ (x.2.2.2 = y.2.2.2 ∧ y.2.1 ≤ x.2.1)

instance : DecidableRel lbRel :=
  fun _ _ => inferInstanceAs (Decidable (_ ∨ _))

instance : IsTotal (String × Nat × Nat × ℚ) lbRel := by
  constructor
  intro x y
  rcases lt_trichotomy x.2.2.2 y.2.2.2 with h | h | h
  · exact Or.inr (Or.inl h)
  · rcases Nat.le_total y.2.1 x.2.1 with h2 | h2
    · exact Or.inl (Or.inr ⟨h, h2⟩)
    · exact Or.inr (Or.inr ⟨h.symm, h2⟩)
  · exact Or.inl (Or.inl h)

instance : IsTrans (String × Nat × Nat × ℚ) lbRel := by
  constructor
  intro x y z hxy hyz
  rcases hxy with h1 | ⟨h1e, h1a⟩
  · rcases hyz with h2 | ⟨h2e, h2a⟩
    · exact Or.inl (lt_trans h2 h1)
    · exact Or.inl (h2e ▸ h1)
  · rcases hyz with h2 | ⟨h2e, h2a⟩
    · exact Or.inl (h1e ▸ h2)
    · exact Or.inr ⟨h1e.trans h2e, le_trans h2a h1a⟩

/-- The rows `leaderboard_ui` renders, in render order. -/
def leaderboard_rows (atts : List Attempt) : List (String × Nat × Nat × ℚ) :=
  List.insertionSort lbRel (lbStats atts)

/-! ## Example data

Six questions (three per chapter) and one student's attempts matching the
end-to-end example of the specification: 3 attempts in "Kinematics"
(1 correct) and 3 in "Optics" (3 correct). -/

def exQs : List Question :=
  [⟨1, "k1", "o1", "o2", "o3", "o4", some "A", "Physics", "Kinematics", "t", "Easy", "Conceptual"⟩,
   ⟨2, "k2", "o1", "o2", "o3", "o4", some "B", "Physics", "Kinematics", "t", "Easy", "Conceptual"⟩,
   ⟨3, "k3", "o1", "o2", "o3", "o4", some "C", "Physics", "Kinematics", "t", "Easy", "Conceptual"⟩,
   ⟨4, "p1", "o1", "o2", "o3", "o4", some "D", "Physics", "Optics", "t", "Easy", "Conceptual"⟩,
   ⟨5, "p2", "o1", "o2", "o3", "o4", some "A", "Physics", "Optics", "t", "Easy", "Conceptual"⟩,
   ⟨6, "p3", "o1", "o2", "o3", "o4", some "B", "Physics", "Optics", "t", "Easy", "Conceptual"⟩]

def exAtts : List Attempt :=
  [⟨"stu", 1, 1⟩, ⟨"stu", 2, 0⟩, ⟨"stu", 3, 0⟩,
   ⟨"stu", 4, 1⟩, ⟨"stu", 5, 1⟩, ⟨"stu", 6, 1⟩]

/-! ## Claim C1 and C9: the grading rule -/

/-- Claim C1, counterexample: for the stored answer `"   "` (whitespace-only)
and submitted letter `"B"`, the claim says the attempt is marked incorrect
(flag 0); the code instead raises `IndexError` indexing `[0]` into the empty
stripped string, so no flag at all is produced (`none`). -/
theorem grading_whitespace_only_answer_raises :
    gradeAnswer (some "   ") "B" = none ∧ gradeAnswer (some "   ") "B" ≠ some 0 := by
  decide

/-- Claim C9 (code bug): grading is not total over all stored answer values —
on a whitespace-only stored answer (here a single space) the correctness flag
is undefined: `row[0].strip().upper()[0]` raises `IndexError`, contradicting
the claim that the flag is always 0 or 1. -/
theorem grading_not_total_on_whitespace_answer :
    gradeAnswer (some " ") "A" = none := by
  decide

/-- Claim C1 (amended): for every submitted letter A–D and every stored answer
that is empty or has a non-empty strip (i.e. is not whitespace-only — on
whitespace-only answers the code raises, see the counterexample), the scoring
routine marks the attempt correct exactly when the stored answer, after
stripping and uppercasing, begins with the submitted letter; the comparison
letter is the first character of the stripped-and-uppercased stored answer. -/
theorem grading_rule_trimmed_first_letter (s u : String)
    (hu : u ∈ (["A", "B", "C", "D"] : List String))
    (hs : s = "" ∨ pyStrip s ≠ "") :
    gradeAnswer (some s) u
      = some (if strBeginsWith (pyUpper (pyStrip s)) u then 1 else 0) := by
  have hchar : ∃ uc : Char, u = String.mk [uc] := by
    simp only [List.mem_cons, List.not_mem_nil, or_false] at hu
    rcases hu with rfl | rfl | rfl | rfl
    · exact ⟨'A', rfl⟩
    · exact ⟨'B', rfl⟩
    · exact ⟨'C', rfl⟩
    · exact ⟨'D', rfl⟩
  obtain ⟨uc, rfl⟩ := hchar
  rcases hs with rfl | hne
  · have h1 : ¬ (String.mk [uc] = "") := by simp [String.ext_iff]
    have h2 : ¬ strBeginsWith (pyUpper (pyStrip "")) (String.mk [uc]) := by
      simp [strBeginsWith, pyStrip, pyUpper]
    rw [show gradeAnswer (some "") (String.mk [uc])
        = some (if String.mk [uc] = "" then 1 else 0) from rfl]
    rw [if_neg h1, if_neg h2]
  · have hsne : s ≠ "" := by
      intro h
      subst h
      exact hne (by decide)
    obtain ⟨c, rest, hc⟩ : ∃ c rest, (pyStrip s).toList = c :: rest := by
      cases h : (pyStrip s).toList with
      | nil =>
        exact absurd (show pyStrip s = "" from congrArg String.mk h) hne
      | cons c rest => exact ⟨c, rest, rfl⟩
    have hup : (pyUpper (pyStrip s)).toList = c.toUpper :: rest.map Char.toUpper := by
      show ((pyStrip s).toList.map Char.toUpper) = _
      rw [hc, List.map_cons]
    have hupd : (pyUpper (pyStrip s)).data = c.toUpper :: rest.map Char.toUpper := hup
    have hiff : (String.mk [uc] = String.mk [c.toUpper])
        ↔ strBeginsWith (pyUpper (pyStrip s)) (String.mk [uc]) := by
      simp [strBeginsWith, hup, hupd, String.ext_iff, eq_comm]
    simp only [gradeAnswer, if_neg hsne, hup]
    rw [if_congr hiff rfl rfl]

/-- Witness for the amended C1 theorem: the stored answer `" b"` against the
submitted letter `"B"` is graded correct. -/
theorem grading_rule_trimmed_first_letter_witness :
    gradeAnswer (some " b") "B" = some 1 := by
  have h := grading_rule_trimmed_first_letter " b" "B" (by decide) (Or.inr (by decide))
  simpa using h

/-! ## Claim C2: the weak-area analyzer -/

/-- Every grouped row of `chapterStats` is `(c, chapCorrect c, chapTotal c)`
for some chapter `c` among the student's joined rows, so its accuracy is
`chapAccuracy` of its chapter name. -/
theorem accOf_eq_chapAccuracy_of_mem (qs : List Question) (atts : List Attempt)
    (sid : String) (x : String × Nat × Nat) (hx : x ∈ chapterStats qs atts sid) :
    accOf x = chapAccuracy qs atts sid x.1 := by
  simp only [chapterStats, List.mem_map] at hx
  obtain ⟨c, _, rfl⟩ := hx
  rfl

/-- A chapter name occurring in `chapterStats` is the chapter of some attempt
of the student: it comes from a joined row. -/
theorem mem_chapterStats_attempted (qs : List Question) (atts : List Attempt)
    (sid : String) (x : String × Nat × Nat) (hx : x ∈ chapterStats qs atts sid) :
    ∃ a ∈ atts, a.student_id = sid ∧ ∃ q ∈ qs, q.id = a.question_id ∧ q.chapter = x.1 := by
  simp only [chapterStats, List.mem_map] at hx
  obtain ⟨c, hc, rfl⟩ := hx
  rw [List.mem_dedup, List.mem_map] at hc
  obtain ⟨row, hrow, hfst⟩ := hc
  simp only [joinedRows, List.mem_flatMap, List.mem_filter, List.mem_map] at hrow
  obtain ⟨a, ⟨ha, hsid⟩, q, ⟨hq, hqid⟩, hrq⟩ := hrow
  refine ⟨a, ha, by simpa using hsid, q, hq, by simpa using hqid, ?_⟩
  rw [← hfst, ← hrq]

/-- Claim C2: `compute_weak_chapters` returns, for every student and limit,
the first `limit` chapter names of the student's attempted chapters sorted
ascending by per-chapter accuracy = correct/total: the result has length
`min limit (number of attempted chapters)`, contains only chapters the student
has attempted, and is ordered by ascending accuracy; and on the concrete
end-to-end example (3 attempts in "Kinematics", 1 correct; 3 in "Optics",
3 correct) the weakest chapter is "Kinematics". -/
theorem compute_weak_chapters_spec (qs : List Question) (atts : List Attempt)
    (sid : String) (limit : Nat) :
    (compute_weak_chapters qs atts sid limit).length
        = min limit (chapterStats qs atts sid).length
    ∧ (∀ c ∈ compute_weak_chapters qs atts sid limit,
        ∃ a ∈ atts, a.student_id = sid ∧ ∃ q ∈ qs, q.id = a.question_id ∧ q.chapter = c)
    ∧ (compute_weak_chapters qs atts sid limit).Pairwise
        (fun c1 c2 => chapAccuracy qs atts sid c1 ≤ chapAccuracy qs atts sid c2)
    ∧ compute_weak_chapters exQs exAtts "stu" 1 = ["Kinematics"] := by
  refine ⟨?_, ?_, ?_, ?_⟩
  · simp [compute_weak_chapters,
      (List.perm_insertionSort chapLE (chapterStats qs atts sid)).length_eq]
  · intro c hc
    simp only [compute_weak_chapters, List.mem_map] at hc
    obtain ⟨x, hx, rfl⟩ := hc
    have hx2 : x ∈ chapterStats qs atts sid := by
      have := List.take_subset limit (List.insertionSort chapLE (chapterStats qs atts sid)) hx
      simpa using this
    exact mem_chapterStats_attempted qs atts sid x hx2
  · have hsorted : (List.insertionSort chapLE (chapterStats qs atts sid)).Pairwise chapLE :=
      List.sorted_insertionSort chapLE (chapterStats qs atts sid)
    have htake : ((List.insertionSort chapLE (chapterStats qs atts sid)).take limit).Pairwise
        chapLE :=
      hsorted.sublist (List.take_sublist limit _)
    rw [compute_weak_chapters, List.pairwise_map]
    refine List.Pairwise.imp_of_mem ?_ htake
    intro x y hx hy hxy
    have hx2 : x ∈ chapterStats qs atts sid := by
      have := List.take_subset limit (List.insertionSort chapLE (chapterStats qs atts sid)) hx
      simpa using this
    have hy2 : y ∈ chapterStats qs atts sid := by
      have := List.take_subset limit (List.insertionSort chapLE (chapterStats qs atts sid)) hy
      simpa using this
    rw [← accOf_eq_chapAccuracy_of_mem qs atts sid x hx2,
      ← accOf_eq_chapAccuracy_of_mem qs atts sid y hy2]
    exact hxy
  · have hs : chapterStats exQs exAtts "stu" = [("Kinematics", 1, 3), ("Optics", 3, 3)] := by
      decide
    rw [compute_weak_chapters, hs]
    norm_num [List.insertionSort, List.orderedInsert, chapLE, accOf]

/-- Witness for C2: the end-to-end example, obtained from the theorem. -/
theorem compute_weak_chapters_spec_witness :
    compute_weak_chapters exQs exAtts "stu" 1 = ["Kinematics"] :=
  (compute_weak_chapters_spec exQs exAtts "stu" 1).2.2.2

/-! ## Claim C3: duplicate question text is silently ignored -/

/-- Claim C3: inserting a question whose (stripped) text equals the text of an
existing row leaves the store unchanged on both write paths — the admin form
reports the duplicate as a skipped warning, the bulk import counts it as
skipped; neither fails, no row is added or modified. -/
theorem duplicate_insert_ignored (store : List Question) (newId : Nat)
    (qtext oa ob oc od ans subj chap top diff qty : String)
    (hex : ∃ r ∈ store, r.question = pyStrip qtext)
    (hne : pyStrip qtext ≠ "") :
    add_question_ui store newId qtext oa ob oc od ans subj chap top diff qty
        = (store, .duplicateSkipped)
    ∧ import_row store newId qtext oa ob oc od ans subj chap top diff qty
        = (store, .skipped) := by
  have hany : store.any (fun r => r.question = pyStrip qtext) = true := by
    rw [List.any_eq_true]
    obtain ⟨r, hr, hq⟩ := hex
    exact ⟨r, hr, by simpa using hq⟩
  constructor
  · rw [add_question_ui, if_neg hne, if_pos hany]
  · rw [import_row]
    simp only [if_neg hne, if_pos hany]

/-- Witness for C3: a store holding a question with text `"Q1"` rejects a
re-insert of `"Q1 "` (same text after strip) on both paths, unchanged. -/
theorem duplicate_insert_ignored_witness :
    add_question_ui exQs 7 "k1 " "x" "x" "x" "x" "A" "s" "c" "t" "Easy" "Mixed"
        = (exQs, .duplicateSkipped)
    ∧ import_row exQs 7 "k1 " "x" "x" "x" "x" "A" "s" "c" "t" "Easy" "Mixed"
        = (exQs, .skipped) :=
  duplicate_insert_ignored exQs 7 "k1 " "x" "x" "x" "x" "A" "s" "c" "t" "Easy" "Mixed"
    ⟨⟨1, "k1", "o1", "o2", "o3", "o4", some "A", "Physics", "Kinematics", "t", "Easy",
      "Conceptual"⟩, by decide, by decide⟩ (by decide)

/-! ## Claim C4: zero attempts -/

/-- Claim C4: for a student with no recorded attempts, `compute_weak_chapters`
returns the empty list for every limit, and the dashboard's overall block
renders the "no attempts" informational state instead of computing the
accuracy percentage. -/
theorem no_attempts_empty_weakest_and_dashboard (qs : List Question)
    (atts : List Attempt) (sid : String)
    (h : ∀ a ∈ atts, a.student_id ≠ sid) :
    (∀ limit, compute_weak_chapters qs atts sid limit = [])
    ∧ student_dashboard_overall atts sid = .noAttempts := by
  have hfilter : atts.filter (fun a => a.student_id = sid) = [] := by
    rw [List.filter_eq_nil_iff]
    intro a ha
    simpa using h a ha
  constructor
  · intro limit
    simp [compute_weak_chapters, chapterStats, joinedRows, hfilter]
  · rw [student_dashboard_overall]
    simp [hfilter]

/-- Witness for C4 at a concrete store and student with no attempts. -/
theorem no_attempts_empty_weakest_and_dashboard_witness :
    compute_weak_chapters exQs exAtts "ghost" 3 = []
    ∧ student_dashboard_overall exAtts "ghost" = .noAttempts :=
  ⟨(no_attempts_empty_weakest_and_dashboard exQs exAtts "ghost" (by decide)).1 3,
   (no_attempts_empty_weakest_and_dashboard exQs exAtts "ghost" (by decide)).2⟩

/-! ## Claim C6: random sampling -/

/-- Claim C6: `ORDER BY RANDOM() LIMIT n` sampling — over any shuffle (the
randomness is an arbitrary permutation) of the matching rows — returns at most
`n` questions drawn from the matching rows, exactly `min n |matching|` of
them, and when fewer than `n` rows match it returns exactly the matching rows;
with distinct rows the sample is a set (no duplicates).  The first half covers
the full-table sample of `take_test_ui`, the second the chapter-filtered
sample of `adaptive_test_ui`. -/
theorem random_sampling_spec (qs : List Question) (chaps : List String)
    (shuffledAll shuffledMatch : List Question) (n : Nat)
    (hA : shuffledAll.Perm qs)
    (hM : shuffledMatch.Perm (matchingRows qs chaps)) :
    (orderRandomLimit shuffledAll n).length = min n qs.length
    ∧ (∀ q ∈ orderRandomLimit shuffledAll n, q ∈ qs)
    ∧ (qs.length ≤ n → (orderRandomLimit shuffledAll n).Perm qs)
    ∧ (qs.Nodup → (orderRandomLimit shuffledAll n).Nodup)
    ∧ (orderRandomLimit shuffledMatch n).length = min n (matchingRows qs chaps).length
    ∧ (∀ q ∈ orderRandomLimit shuffledMatch n, q ∈ matchingRows qs chaps)
    ∧ ((matchingRows qs chaps).length ≤ n
        → (orderRandomLimit shuffledMatch n).Perm (matchingRows qs chaps))
    ∧ (qs.Nodup → (orderRandomLimit shuffledMatch n).Nodup) := by
  refine ⟨?_, ?_, ?_, ?_, ?_, ?_, ?_, ?_⟩
  · rw [orderRandomLimit, List.length_take, hA.length_eq]
  · intro q hq
    exact hA.subset (List.take_subset n shuffledAll hq)
  · intro hlen
    rw [orderRandomLimit, List.take_of_length_le (by rw [hA.length_eq]; exact hlen)]
    exact hA
  · intro hnd
    exact ((hA.symm.nodup hnd).sublist (List.take_sublist n shuffledAll))
  · rw [orderRandomLimit, List.length_take, hM.length_eq]
  · intro q hq
    exact hM.subset (List.take_subset n shuffledMatch hq)
  · intro hlen
    rw [orderRandomLimit, List.take_of_length_le (by rw [hM.length_eq]; exact hlen)]
    exact hM
  · intro hnd
    exact ((hM.symm.nodup (hnd.filter _)).sublist (List.take_sublist n shuffledMatch))

/-- Witness for C6: the identity shuffle on the example store; a request for
10 questions from the 3-row "Optics" pool returns all 3 matching rows. -/
theorem random_sampling_spec_witness :
    (matchingRows exQs ["Optics"]).length ≤ 10
    ∧ (orderRandomLimit (matchingRows exQs ["Optics"]) 10).Perm
        (matchingRows exQs ["Optics"]) :=
  ⟨by decide,
   (random_sampling_spec exQs ["Optics"] exQs (matchingRows exQs ["Optics"]) 10
      (List.Perm.refl exQs) (List.Perm.refl (matchingRows exQs ["Optics"]))).2.2.2.2.2.2.1
     (by decide)⟩

/-! ## Claim C8: test-session keying -/

/-- Claim C8: the test session is keyed by the single student identifier held
in `test_student` — re-entering the test view for the same student with an
in-progress session resumes it unchanged (the freshly drawn rows are ignored,
no resampling), while entering for a different student overwrites the prior
session's in-memory state with a fresh sample and blank answers keyed to the
new student. -/
theorem test_session_keying (s : SessionState) (sid other : String)
    (qs fresh : List Question) :
    (s.test_questions = some qs → s.test_student = some sid →
      take_test_prepare s sid fresh = s)
    ∧ (s.test_student = some other → other ≠ sid → fresh ≠ [] →
      take_test_prepare s sid fresh =
        { test_questions := some fresh, test_student := some sid,
          answers := fresh.map (fun q => (q.id, "")) }) := by
  constructor
  · intro hq hst
    rw [take_test_prepare, if_neg]
    push_neg
    exact ⟨by rw [hq]; exact fun h => Option.noConfusion h, by rw [hst]⟩
  · intro hst hne hfresh
    rw [take_test_prepare, if_pos, if_neg hfresh]
    refine Or.inr ?_
    rw [hst]
    intro h
    exact hne (Option.some_injective _ h)

/-- Witness for C8: a session for `"stu"` is resumed untouched on re-entry,
and is discarded and resampled when `"stu2"` enters. -/
theorem test_session_keying_witness :
    take_test_prepare ⟨some exQs, some "stu", [(1, "A")]⟩ "stu" [] =
      (⟨some exQs, some "stu", [(1, "A")]⟩ : SessionState)
    ∧ take_test_prepare ⟨some exQs, some "stu", [(1, "A")]⟩ "stu2"
        [⟨9, "q9", "a", "b", "c", "d", some "A", "s", "c", "t", "Easy", "Mixed"⟩] =
      (⟨some [⟨9, "q9", "a", "b", "c", "d", some "A", "s", "c", "t", "Easy", "Mixed"⟩],
        some "stu2", [(9, "")]⟩ : SessionState) :=
  ⟨(test_session_keying ⟨some exQs, some "stu", [(1, "A")]⟩ "stu" "stu" exQs []).1 rfl rfl,
   (test_session_keying ⟨some exQs, some "stu", [(1, "A")]⟩ "stu2" "stu" exQs
      [⟨9, "q9", "a", "b", "c", "d", some "A", "s", "c", "t", "Easy", "Mixed"⟩]).2
     rfl (by decide) (by decide)⟩

/-! ## Claim C5: leaderboard ordering -/

/-- Claim C5: the leaderboard lists exactly one entry per student occurring in
the attempt log, sorted descending by the per-student accuracy column and, for
entries with equal accuracy, descending by attempt count — for every two
entries with equal accuracy, the one with more attempts comes first.  An entry
is `(student, attempted, correct, accuracy)`. -/
theorem leaderboard_spec (atts : List Attempt) :
    ((leaderboard_rows atts).map (fun e => e.1)).Nodup
    ∧ (∀ s, s ∈ (leaderboard_rows atts).map (fun e => e.1)
        ↔ ∃ a ∈ atts, a.student_id = s)
    ∧ (leaderboard_rows atts).Pairwise (fun x y => y.2.2.2 ≤ x.2.2.2)
    ∧ (leaderboard_rows atts).Pairwise
        (fun x y => x.2.2.2 = y.2.2.2 → y.2.1 ≤ x.2.1) := by
  have hperm : (leaderboard_rows atts).Perm (lbStats atts) :=
    List.perm_insertionSort lbRel (lbStats atts)
  have hmapfst : (lbStats atts).map (fun e => e.1) = (atts.map Attempt.student_id).dedup := by
    rw [lbStats, List.map_map]
    exact List.map_id _
  have hsorted : (leaderboard_rows atts).Pairwise lbRel :=
    List.sorted_insertionSort lbRel (lbStats atts)
  refine ⟨?_, ?_, ?_, ?_⟩
  · exact ((hperm.map (fun e => e.1)).symm.nodup (hmapfst ▸ (atts.map Attempt.student_id).nodup_dedup))
  · intro s
    rw [(hperm.map (fun e => e.1)).mem_iff, hmapfst, List.mem_dedup, List.mem_map]
  · refine hsorted.imp ?_
    intro x y hxy
    rcases hxy with h | ⟨heq, _⟩
    · exact le_of_lt h
    · exact le_of_eq heq.symm
  · refine hsorted.imp ?_
    intro x y hxy heq
    rcases hxy with h | ⟨_, hatt⟩
    · exact absurd (heq ▸ h) (lt_irrefl _)
    · exact hatt

/-- Witness for C5 at the example attempt log. -/
theorem leaderboard_spec_witness :
    ((leaderboard_rows exAtts).map (fun e => e.1)).Nodup
    ∧ ("stu" ∈ (leaderboard_rows exAtts).map (fun e => e.1)
        ↔ ∃ a ∈ exAtts, a.student_id = "stu") :=
  ⟨(leaderboard_spec exAtts).1, (leaderboard_spec exAtts).2.1 "stu"⟩

/-! ## Claim C7: answer normalization cascade -/

/-- Claim C7, counterexample: the cascade as claimed compares the answer
against the option texts as they stand in the row, but the import pipeline
strips only the Answer column before `normalize_answer` runs (the option
columns are only `fillna("")`), while the code strips each option cell before
comparing.  On the row (Answer `"x"`, Option A `" x "`) the code matches the
stripped option and returns `"A"`, whereas the claimed cascade finds no match
and passes `"x"` through unchanged. -/
theorem normalize_answer_diverges_on_padded_option :
    normalize_answer "x" " x " "y" "z" "w" = "A"
    ∧ normalizeAnswerSpec "x" " x " "y" "z" "w" = "x"
    ∧ normalize_answer "x" " x " "y" "z" "w"
        ≠ normalizeAnswerSpec "x" " x " "y" "z" "w" := by
  decide

/-- Claim C7 (amended): on every imported spreadsheet row — whose Answer cell
the pipeline has already stripped (`astype(str).str.strip()`), so
`pyStrip answer = answer` — the Answer field is normalized by the cascade with
its option-match step reading "matches one of the four *whitespace-stripped*
option texts case-insensitively"; the other steps are exactly as claimed
(single letter kept uppercased, else first A–D character of the uppercased
value, else unchanged, empty stays empty). -/
theorem normalize_answer_matches_stripped_cascade (answer oa ob oc od : String)
    (h0 : pyStrip answer = answer) :
    normalize_answer answer oa ob oc od
      = normalizeAnswerCascadeStripped answer oa ob oc od := by
  rw [normalize_answer, normalizeAnswerCascadeStripped, h0]

/-- Witness for the amended C7 theorem, exercising the very row of the
counterexample: with a whitespace-padded option cell, the code and the
amended cascade agree and produce the letter "A". -/
theorem normalize_answer_matches_stripped_cascade_witness :
    normalize_answer "x" " x " "y" "z" "w"
      = normalizeAnswerCascadeStripped "x" " x " "y" "z" "w"
    ∧ normalizeAnswerCascadeStripped "x" " x " "y" "z" "w" = "A" :=
  ⟨normalize_answer_matches_stripped_cascade "x" " x " "y" "z" "w" (by decide),
   by decide⟩

/-! ## Claim C10: Add Question stores a clean letter -/

/-- Claim C10: every question created through the admin Add Question form has
its stored answer equal to the selected option letter — one of "A"–"D", never
the option's text — and the question, option and tag fields stored
whitespace-trimmed (`difficulty` and `qtype` come from fixed select boxes
whose values are already trim-invariant); consequently grading such a question
is always defined. -/
theorem add_question_stores_clean_letter (store : List Question) (newId : Nat)
    (qtext oa ob oc od ans subj chap top diff qty : String)
    (hans : ans ∈ (["A", "B", "C", "D"] : List String))
    (hdiff : diff ∈ (["Easy", "Medium", "Hard"] : List String))
    (hqty : qty ∈ (["Conceptual", "Numerical", "Formula", "Mixed"] : List String))
    (hne : pyStrip qtext ≠ "")
    (hdup : ∀ r ∈ store, r.question ≠ pyStrip qtext) :
    ∃ q : Question,
      add_question_ui store newId qtext oa ob oc od ans subj chap top diff qty
          = (store ++ [q], .added)
      ∧ q.answer = some ans
      ∧ ans ∈ (["A", "B", "C", "D"] : List String)
      ∧ q.question = pyStrip qtext ∧ q.option_a = pyStrip oa ∧ q.option_b = pyStrip ob
      ∧ q.option_c = pyStrip oc ∧ q.option_d = pyStrip od ∧ q.subject = pyStrip subj
      ∧ q.chapter = pyStrip chap ∧ q.topic = pyStrip top
      ∧ q.difficulty = diff ∧ pyStrip q.difficulty = q.difficulty
      ∧ q.qtype = qty ∧ pyStrip q.qtype = q.qtype
      ∧ (∀ u, (gradeAnswer q.answer u).isSome = true) := by
  have hansStrip : pyStrip ans = ans := by
    simp only [List.mem_cons, List.not_mem_nil, or_false] at hans
    rcases hans with rfl | rfl | rfl | rfl <;> decide
  have hdiffStrip : pyStrip diff = diff := by
    simp only [List.mem_cons, List.not_mem_nil, or_false] at hdiff
    rcases hdiff with rfl | rfl | rfl <;> decide
  have hqtyStrip : pyStrip qty = qty := by
    simp only [List.mem_cons, List.not_mem_nil, or_false] at hqty
    rcases hqty with rfl | rfl | rfl | rfl <;> decide
  have hany : store.any (fun r => r.question = pyStrip qtext) = false := by
    rw [List.any_eq_false]
    intro r hr
    simpa using hdup r hr
  refine ⟨⟨newId, pyStrip qtext, pyStrip oa, pyStrip ob, pyStrip oc, pyStrip od,
      some (pyStrip ans), pyStrip subj, pyStrip chap, pyStrip top, diff, qty⟩,
    ?_, ?_, hans, rfl, rfl, rfl, rfl, rfl, rfl, rfl, rfl, rfl, ?_, rfl, ?_, ?_⟩
  · rw [add_question_ui, if_neg hne]
    simp only [hany, Bool.false_eq_true, if_false]
  · rw [hansStrip]
  · rw [hdiffStrip]
  · rw [hqtyStrip]
  · intro u
    simp only [List.mem_cons, List.not_mem_nil, or_false] at hans
    rcases hans with rfl | rfl | rfl | rfl <;> rfl

/-- Witness for C10 at concrete form inputs. -/
theorem add_question_stores_clean_letter_witness :
    ∃ q : Question,
      add_question_ui exQs 7 " New question " " 3 " "4" "5" "6" "B" " Physics "
          "Kinematics" "speed" "Medium" "Numerical"
          = (exQs ++ [q], .added)
      ∧ q.answer = some "B"
      ∧ "B" ∈ (["A", "B", "C", "D"] : List String)
      ∧ q.question = pyStrip " New question " ∧ q.option_a = pyStrip " 3 "
      ∧ q.option_b = pyStrip "4" ∧ q.option_c = pyStrip "5" ∧ q.option_d = pyStrip "6"
      ∧ q.subject = pyStrip " Physics " ∧ q.chapter = pyStrip "Kinematics"
      ∧ q.topic = pyStrip "speed"
      ∧ q.difficulty = "Medium" ∧ pyStrip q.difficulty = q.difficulty
      ∧ q.qtype = "Numerical" ∧ pyStrip q.qtype = q.qtype
      ∧ (∀ u, (gradeAnswer q.answer u).isSome = true) :=
  add_question_stores_clean_letter exQs 7 " New question " " 3 " "4" "5" "6" "B"
    " Physics " "Kinematics" "speed" "Medium" "Numerical"
    (by decide) (by decide) (by decide) (by decide) (by decide)
